import Mathlib

/-!
Shallow embedding of `src/backend/src/scripts/transcribe.py`, a CLI adapter
that transcribes a single audio file with the faster-whisper engine and
prints a one-line JSON result.

The external collaborators (the `os.path.exists` filesystem check and the
`WhisperModel` engine) are modelled as oracle parameters.  The process
outcome records the exit code, the structured JSON values printed to
stdout, the diagnostic lines printed to stderr, and a trace of calls made
into the engine (so that claims about *which* arguments reach the engine,
and whether it is reached at all, are statable).
-/

/-- A speech segment as yielded by the engine: the adapter only reads `.text`. -/
structure Segment where
  text : String
deriving Repr, DecidableEq

/-- File-level metadata returned by the engine alongside the segments
(`info.language`, `info.language_probability`).  The probability is kept as
its printed form, since the adapter only interpolates it into a diagnostic
line. -/
structure TranscriptionInfo where
  language : String
  language_probability : String
deriving Repr, DecidableEq

/-- The loaded engine instance: `model.transcribe(file_path, beam_size)`
returns the segment sequence with the metadata, or raises. -/
structure WhisperModel where
  transcribe : String → Nat → Except String (List Segment × TranscriptionInfo)

/-- The ambient environment of one process invocation: the
`WhisperModel(model_size, device, compute_type)` constructor (which may
raise), and `os.path.exists`. -/
structure Env where
  whisperModel : String → String → String → Except String WhisperModel
  path_exists : String → Bool

/-- One call made into an external collaborator, in program order. -/
inductive Event where
  | loadModel (model_size device compute_type : String) : Event
  | modelTranscribe (file_path : String) (beam_size : Nat) : Event
deriving Repr, DecidableEq

/-- A JSON value, as produced by `json.dumps` (the adapter only ever emits
an object of two string fields, but `null` is kept so that "never null" is
a statable property of the embedding). -/
inductive Json where
  | null : Json
  | str (s : String) : Json
  | obj (fields : List (String × Json)) : Json

/-- The keys of a JSON object, in order. -/
def Json.keys : Json → List String
  | .obj fields => fields.map Prod.fst
  | _ => []

/-- Observable result of one process invocation. -/
structure Outcome where
  exitCode : Nat
  stdout : List Json
  stderr : List String
  events : List Event

/-- The ASCII whitespace recognised and stripped by the Python method str.strip. -/
def isPySpace (c : Char) : Bool :=
  c == ' ' || c == '\t' || c == '\n' || c == '\r' || c == '\x0b' || c == '\x0c'

/-- `str.strip()`: drop leading and trailing whitespace. -/
def pyStrip (s : String) : String :=
  String.mk (((s.data.dropWhile isPySpace).reverse.dropWhile isPySpace).reverse)

/-- Embedding of the `transcribe(file_path, model_size="small")` function
(lines 6-45 of `transcribe.py`). -/
def transcribe (env : Env) (file_path : String) (model_size : String := "small") :
    Outcome :=
  let device := "cpu"
  let compute_type := "int8"
  let loadLine := "Loading model \x27" ++ model_size ++ "\x27 on " ++ device ++
      " with " ++ compute_type ++ " precision..."
  match env.whisperModel model_size device compute_type with
  | .error e =>
      { exitCode := 1
        stdout := []
        stderr := [loadLine, "Error loading model: " ++ e]
        events := [Event.loadModel model_size device compute_type] }
  | .ok model =>
      let transLine := "Transcribing " ++ file_path ++ "..."
      match model.transcribe file_path 1 with
      | .error e =>
          { exitCode := 1
            stdout := []
            stderr := [loadLine, transLine, "Error during transcription: " ++ e]
            events := [Event.loadModel model_size device compute_type,
                       Event.modelTranscribe file_path 1] }
      | .ok (segments, info) =>
          let detectLine := "Detected language \x27" ++ info.language ++
              "\x27 with probability " ++ info.language_probability
          let transcript := segments.foldl
              (fun acc segment => acc ++ segment.text ++ " ") ""
          let result := Json.obj [("text", Json.str (pyStrip transcript)),
                                  ("language", Json.str info.language)]
          { exitCode := 0
            stdout := [result]
            stderr := [loadLine, transLine, detectLine]
            events := [Event.loadModel model_size device compute_type,
                       Event.modelTranscribe file_path 1] }

/-- Embedding of the `__main__` block (lines 47-59): argument parsing,
existence check, then `transcribe`.  `argv` is `sys.argv`, so `argv.head?`
is the program name. -/
def mainEntry (env : Env) (argv : List String) : Outcome :=
  if argv.length < 2 then
    { exitCode := 1
      stdout := []
      stderr := ["Usage: python3 transcribe.py <audio_file_path> [model_size]"]
      events := [] }
  else
    let file_path := argv.getD 1 ""
    let model_size := if argv.length > 2 then argv.getD 2 "" else "small"
    if env.path_exists file_path = false then
      { exitCode := 1
        stdout := []
        stderr := ["File not found: " ++ file_path]
        events := [] }
    else
      transcribe env file_path model_size

/-- A hello-world engine used to instantiate universally quantified
theorems at a concrete input. -/
def helloModel : WhisperModel :=
  { transcribe := fun _ _ =>
      Except.ok ([⟨"Hello"⟩, ⟨"world"⟩], ⟨"en", "0.98"⟩) }

/-- Environment whose engine always loads and yields the hello-world
segments, over a filesystem where every path exists. -/
def helloEnv : Env :=
  { whisperModel := fun _ _ _ => Except.ok helloModel
    path_exists := fun _ => true }

/-- Environment whose engine yields no segments. -/
def emptyEnv : Env :=
  { whisperModel := fun _ _ _ =>
      Except.ok { transcribe := fun _ _ => Except.ok ([], ⟨"en", "0.4"⟩) }
    path_exists := fun _ => true }

/-- Environment whose model constructor raises. -/
def loadFailEnv : Env :=
  { whisperModel := fun _ _ _ => Except.error "boom"
    path_exists := fun _ => true }

/-- Environment whose engine raises during transcription. -/
def decodeFailEnv : Env :=
  { whisperModel := fun _ _ _ =>
      Except.ok { transcribe := fun _ _ => Except.error "bad audio" }
    path_exists := fun _ => true }

/-! ## Helper lemmas -/

/-- Folding string append from an initial accumulator prepends it to the join. -/
theorem foldl_append_eq_append_join (l : List String) (init : String) :
    l.foldl (fun acc s => acc ++ s) init = init ++ String.join l := by
  induction l generalizing init with
  | nil => simp [String.join]
  | cons a t ih =>
      show t.foldl _ (init ++ a) = _
      rw [ih]
      conv_rhs => rw [String.join, List.foldl_cons]
      show _ = init ++ t.foldl (fun acc s => acc ++ s) ("" ++ a)
      rw [ih, String.append_assoc]
      simp

/-- The transcript loop of `transcribe` computes the join of the segment
texts, each with one trailing space, in production order. -/
theorem transcript_loop_eq_join (segments : List Segment) :
    segments.foldl (fun acc segment => acc ++ segment.text ++ " ") ""
      = String.join (segments.map (fun segment => segment.text ++ " ")) := by
  have h : segments.foldl (fun acc segment => acc ++ segment.text ++ " ") ""
      = (segments.map (fun segment => segment.text ++ " ")).foldl
          (fun acc s => acc ++ s) "" := by
    rw [List.foldl_map]
    simp [String.append_assoc]
  rw [h, foldl_append_eq_append_join]
  simp

/-! ## Claims -/

/-- C1: For every finite sequence of engine segments, the result text equals
the concatenation of the text of each segment followed by a single trailing
space, in engine production order with no reordering, with the final
string trimmed of leading/trailing whitespace. -/
theorem result_text_is_trimmed_ordered_concat (env : Env) (prog path ms : String)
    (model : WhisperModel) (segments : List Segment) (info : TranscriptionInfo)
    (hexists : env.path_exists path = true)
    (hload : env.whisperModel ms "cpu" "int8" = Except.ok model)
    (hrun : model.transcribe path 1 = Except.ok (segments, info)) :
    (mainEntry env [prog, path, ms]).stdout
      = [Json.obj
          [("text", Json.str (pyStrip (String.join
              (segments.map (fun segment => segment.text ++ " "))))),
           ("language", Json.str info.language)]] := by
  simp [mainEntry, transcribe, hexists, hload, hrun, List.getD,
    transcript_loop_eq_join]

/-- C1 witness: with engine segments `["Hello", "world"]` the result text is
`"Hello world"`. -/
theorem result_text_is_trimmed_ordered_concat_witness :
    (mainEntry helloEnv ["transcribe.py", "a.wav", "small"]).stdout
      = [Json.obj [("text", Json.str "Hello world"),
                   ("language", Json.str "en")]] := by
  rw [result_text_is_trimmed_ordered_concat helloEnv "transcribe.py" "a.wav"
    "small" helloModel [⟨"Hello"⟩, ⟨"world"⟩] ⟨"en", "0.98"⟩ rfl rfl rfl]
  rfl

/-- C2: For every invocation whose audio file path does not exist, the
process exits with code 1 before any model loading is attempted (no engine
call is made), and writes no JSON to standard output. -/
theorem missing_file_exits_before_load (env : Env) (argv : List String)
    (hlen : 2 ≤ argv.length)
    (hmissing : env.path_exists (argv.getD 1 "") = false) :
    (mainEntry env argv).exitCode = 1 ∧ (mainEntry env argv).stdout = []
      ∧ (mainEntry env argv).events = [] := by
  have hm : env.path_exists (argv[1]?.getD "") = false := by
    simpa [List.getD] using hmissing
  simp [mainEntry, Nat.not_lt.mpr hlen, List.getD, hm]

/-- C2 witness. -/
theorem missing_file_exits_before_load_witness :
    (2 ≤ (["transcribe.py", "gone.wav"] : List String).length
        ∧ Env.path_exists ⟨helloEnv.whisperModel, fun _ => false⟩
            ((["transcribe.py", "gone.wav"] : List String).getD 1 "") = false)
      ∧ (mainEntry ⟨helloEnv.whisperModel, fun _ => false⟩
            ["transcribe.py", "gone.wav"]).exitCode = 1
        ∧ (mainEntry ⟨helloEnv.whisperModel, fun _ => false⟩
            ["transcribe.py", "gone.wav"]).stdout = []
        ∧ (mainEntry ⟨helloEnv.whisperModel, fun _ => false⟩
            ["transcribe.py", "gone.wav"]).events = [] :=
  ⟨⟨by decide, rfl⟩,
    missing_file_exits_before_load ⟨helloEnv.whisperModel, fun _ => false⟩
      ["transcribe.py", "gone.wav"] (by decide) rfl⟩

/-- The head of `dropWhile p` never satisfies `p`. -/
theorem head?_dropWhile_false (p : Char → Bool) (l : List Char) (c : Char)
    (h : (l.dropWhile p).head? = some c) : p c = false := by
  induction l with
  | nil => simp [List.dropWhile] at h
  | cons a t ih =>
      rw [List.dropWhile_cons] at h
      by_cases hp : p a
      · rw [if_pos hp] at h
        exact ih h
      · rw [if_neg hp] at h
        simp at h
        rw [← h]
        simpa using hp

/-- A stripped string never starts with Python whitespace. -/
theorem pyStrip_head_not_space (s : String) (c : Char)
    (h : (pyStrip s).data.head? = some c) : isPySpace c = false := by
  unfold pyStrip at h
  rw [List.head?_reverse] at h
  have hmne : (s.data.dropWhile isPySpace).reverse.dropWhile isPySpace ≠ [] := by
    intro hnil
    rw [hnil] at h
    simp at h
  have hsuf : (s.data.dropWhile isPySpace).reverse.dropWhile isPySpace
      <:+ (s.data.dropWhile isPySpace).reverse := List.dropWhile_suffix isPySpace
  obtain ⟨t, ht⟩ := hsuf
  have h2 : (s.data.dropWhile isPySpace).reverse.getLast? = some c := by
    rw [← ht, List.getLast?_append_of_ne_nil t hmne]
    exact h
  rw [List.getLast?_reverse] at h2
  exact head?_dropWhile_false isPySpace s.data c h2

/-- A stripped string never ends with Python whitespace. -/
theorem pyStrip_getLast_not_space (s : String) (c : Char)
    (h : (pyStrip s).data.getLast? = some c) : isPySpace c = false := by
  unfold pyStrip at h
  rw [List.getLast?_reverse] at h
  exact head?_dropWhile_false isPySpace _ c h

/-- Every outcome of `mainEntry` is either a failure (exit code 1, empty
stdout) or a success whose stdout is one two-field JSON object whose text
is a stripped string. -/
theorem mainEntry_outcome_shape (env : Env) (argv : List String) :
    ((mainEntry env argv).exitCode = 1 ∧ (mainEntry env argv).stdout = [])
    ∨ ((mainEntry env argv).exitCode = 0
        ∧ ∃ s lang, (mainEntry env argv).stdout
            = [Json.obj [("text", Json.str (pyStrip s)),
                         ("language", Json.str lang)]]) := by
  unfold mainEntry transcribe
  dsimp only
  repeat' split
  all_goals first
    | exact Or.inl ⟨rfl, rfl⟩
    | exact Or.inr ⟨rfl, _, _, rfl⟩

/-- The event trace of `mainEntry` is empty, a lone load, or a load
followed by one transcription call; loads always carry "cpu"/"int8" and
transcription calls always carry beam size 1. -/
theorem mainEntry_events_shape (env : Env) (argv : List String) :
    (mainEntry env argv).events = []
    ∨ (∃ ms, (mainEntry env argv).events = [Event.loadModel ms "cpu" "int8"])
    ∨ (∃ ms fp, (mainEntry env argv).events
        = [Event.loadModel ms "cpu" "int8", Event.modelTranscribe fp 1]) := by
  unfold mainEntry transcribe
  dsimp only
  repeat' split
  all_goals first
    | exact Or.inl rfl
    | exact Or.inr (Or.inl ⟨_, rfl⟩)
    | exact Or.inr (Or.inr ⟨_, _, rfl⟩)

/-- C3: If model instantiation throws, the process exits with code 1,
produces no standard output, and the underlying error message is forwarded
to standard error (inside the "Error loading model: " line, unaltered). -/
theorem model_load_failure_exits_one (env : Env) (prog path ms e : String)
    (hexists : env.path_exists path = true)
    (hload : env.whisperModel ms "cpu" "int8" = Except.error e) :
    (mainEntry env [prog, path, ms]).exitCode = 1
      ∧ (mainEntry env [prog, path, ms]).stdout = []
      ∧ ("Error loading model: " ++ e)
          ∈ (mainEntry env [prog, path, ms]).stderr := by
  simp [mainEntry, transcribe, hexists, hload, List.getD]

/-- C3 witness. -/
theorem model_load_failure_exits_one_witness :
    (loadFailEnv.path_exists "a.wav" = true
      ∧ loadFailEnv.whisperModel "small" "cpu" "int8" = Except.error "boom")
    ∧ (mainEntry loadFailEnv ["transcribe.py", "a.wav", "small"]).exitCode = 1
    ∧ (mainEntry loadFailEnv ["transcribe.py", "a.wav", "small"]).stdout = []
    ∧ ("Error loading model: " ++ "boom")
        ∈ (mainEntry loadFailEnv ["transcribe.py", "a.wav", "small"]).stderr :=
  ⟨⟨rfl, rfl⟩, model_load_failure_exits_one loadFailEnv "transcribe.py"
    "a.wav" "small" "boom" rfl rfl⟩

/-- C4: On every successful invocation, stdout is exactly one JSON value,
an object whose keys are exactly `text` and `language`, both strings. -/
theorem success_stdout_single_json_two_keys (env : Env) (argv : List String)
    (hsuccess : (mainEntry env argv).exitCode = 0) :
    (mainEntry env argv).stdout.length = 1
      ∧ ∀ j ∈ (mainEntry env argv).stdout,
          (∃ t lang, j = Json.obj [("text", Json.str t),
                                   ("language", Json.str lang)])
          ∧ Json.keys j = ["text", "language"] := by
  rcases mainEntry_outcome_shape env argv with ⟨h1, _⟩ | ⟨_, s, lang, hout⟩
  · rw [h1] at hsuccess
    exact absurd hsuccess (by simp)
  · rw [hout]
    refine ⟨rfl, ?_⟩
    intro j hj
    simp at hj
    subst hj
    exact ⟨⟨_, _, rfl⟩, rfl⟩

/-- C4 witness. -/
theorem success_stdout_single_json_two_keys_witness :
    (mainEntry helloEnv ["transcribe.py", "a.wav"]).exitCode = 0
    ∧ ((mainEntry helloEnv ["transcribe.py", "a.wav"]).stdout.length = 1
      ∧ ∀ j ∈ (mainEntry helloEnv ["transcribe.py", "a.wav"]).stdout,
          (∃ t lang, j = Json.obj [("text", Json.str t),
                                   ("language", Json.str lang)])
          ∧ Json.keys j = ["text", "language"]) :=
  ⟨rfl, success_stdout_single_json_two_keys helloEnv
    ["transcribe.py", "a.wav"] rfl⟩

/-- C5: If the engine yields an empty segment sequence without raising, the
result text is the empty string and the exit code is 0. -/
theorem empty_segments_empty_text_exit_zero (env : Env) (prog path ms : String)
    (model : WhisperModel) (info : TranscriptionInfo)
    (hexists : env.path_exists path = true)
    (hload : env.whisperModel ms "cpu" "int8" = Except.ok model)
    (hrun : model.transcribe path 1 = Except.ok ([], info)) :
    (mainEntry env [prog, path, ms]).exitCode = 0
      ∧ (mainEntry env [prog, path, ms]).stdout
          = [Json.obj [("text", Json.str ""),
                       ("language", Json.str info.language)]] := by
  simp [mainEntry, transcribe, hexists, hload, hrun, List.getD]
  rfl

/-- C5 witness. -/
theorem empty_segments_empty_text_exit_zero_witness :
    (emptyEnv.path_exists "a.wav" = true
      ∧ emptyEnv.whisperModel "small" "cpu" "int8"
          = Except.ok { transcribe := fun _ _ => Except.ok ([], ⟨"en", "0.4"⟩) })
    ∧ (mainEntry emptyEnv ["transcribe.py", "a.wav", "small"]).exitCode = 0
    ∧ (mainEntry emptyEnv ["transcribe.py", "a.wav", "small"]).stdout
        = [Json.obj [("text", Json.str ""), ("language", Json.str "en")]] :=
  ⟨⟨rfl, rfl⟩, empty_segments_empty_text_exit_zero emptyEnv "transcribe.py"
    "a.wav" "small" { transcribe := fun _ _ => Except.ok ([], ⟨"en", "0.4"⟩) }
    ⟨"en", "0.4"⟩ rfl rfl rfl⟩

/-- Whatever the engine does, the first engine call made by `transcribe` is
the model load with the given size on "cpu"/"int8". -/
theorem transcribe_first_event_is_load (env : Env) (fp ms : String) :
    (transcribe env fp ms).events.head?
      = some (Event.loadModel ms "cpu" "int8") := by
  unfold transcribe
  dsimp only
  repeat' split
  all_goals rfl

/-- C6: An invocation that omits the optional model_size argument passes
the string "small" to the model loader as the model size. -/
theorem omitted_model_size_defaults_small (env : Env) (prog path : String)
    (hexists : env.path_exists path = true) :
    (mainEntry env [prog, path]).events.head?
      = some (Event.loadModel "small" "cpu" "int8") := by
  have h := transcribe_first_event_is_load env path "small"
  simp only [mainEntry, List.length_cons, List.length_nil]
  norm_num [List.getD, hexists]
  exact h

/-- C6 witness. -/
theorem omitted_model_size_defaults_small_witness :
    helloEnv.path_exists "a.wav" = true
    ∧ (mainEntry helloEnv ["transcribe.py", "a.wav"]).events.head?
        = some (Event.loadModel "small" "cpu" "int8") :=
  ⟨rfl, omitted_model_size_defaults_small helloEnv "transcribe.py" "a.wav" rfl⟩

/-- C7: Every engine call of every invocation instantiates the model with
device "cpu" and precision "int8", and every transcription call uses beam
width 1. -/
theorem engine_config_cpu_int8_beam_one (env : Env) (argv : List String)
    (ev : Event) (hmem : ev ∈ (mainEntry env argv).events) :
    (∃ ms, ev = Event.loadModel ms "cpu" "int8")
    ∨ (∃ fp, ev = Event.modelTranscribe fp 1) := by
  rcases mainEntry_events_shape env argv with h | ⟨ms, h⟩ | ⟨ms, fp, h⟩ <;>
    rw [h] at hmem <;> simp at hmem
  · exact Or.inl ⟨ms, hmem⟩
  · rcases hmem with hmem | hmem
    · exact Or.inl ⟨ms, hmem⟩
    · exact Or.inr ⟨fp, hmem⟩

/-- C7 witness. -/
theorem engine_config_cpu_int8_beam_one_witness :
    (Event.modelTranscribe "a.wav" 1
        ∈ (mainEntry helloEnv ["transcribe.py", "a.wav"]).events)
    ∧ ((∃ ms, Event.modelTranscribe "a.wav" 1 = Event.loadModel ms "cpu" "int8")
      ∨ (∃ fp, Event.modelTranscribe "a.wav" 1 = Event.modelTranscribe fp 1)) :=
  ⟨by decide, engine_config_cpu_int8_beam_one helloEnv ["transcribe.py", "a.wav"]
    (Event.modelTranscribe "a.wav" 1) (by decide)⟩

/-- C8: On every successful invocation the emitted `text` field is a string
(possibly empty), never the JSON null, with no leading or trailing
whitespace character. -/
theorem text_field_string_no_surrounding_ws (env : Env) (argv : List String)
    (hsuccess : (mainEntry env argv).exitCode = 0) :
    ∃ t lang, (mainEntry env argv).stdout
        = [Json.obj [("text", Json.str t), ("language", Json.str lang)]]
      ∧ Json.str t ≠ Json.null
      ∧ (∀ c, t.data.head? = some c → isPySpace c = false)
      ∧ (∀ c, t.data.getLast? = some c → isPySpace c = false) := by
  rcases mainEntry_outcome_shape env argv with ⟨h1, _⟩ | ⟨_, s, lang, hout⟩
  · rw [h1] at hsuccess
    exact absurd hsuccess (by simp)
  · exact ⟨pyStrip s, lang, hout, fun h => Json.noConfusion h,
      fun c hc => pyStrip_head_not_space s c hc,
      fun c hc => pyStrip_getLast_not_space s c hc⟩

/-- C8 witness. -/
theorem text_field_string_no_surrounding_ws_witness :
    (mainEntry helloEnv ["transcribe.py", "a.wav"]).exitCode = 0
    ∧ ∃ t lang, (mainEntry helloEnv ["transcribe.py", "a.wav"]).stdout
        = [Json.obj [("text", Json.str t), ("language", Json.str lang)]]
      ∧ Json.str t ≠ Json.null
      ∧ (∀ c, t.data.head? = some c → isPySpace c = false)
      ∧ (∀ c, t.data.getLast? = some c → isPySpace c = false) :=
  ⟨rfl, text_field_string_no_surrounding_ws helloEnv
    ["transcribe.py", "a.wav"] rfl⟩

/-- C9: Positional arguments after the second are silently ignored: the
invocation behaves identically to the one truncated to the first two
arguments after the program name, and no usage error is raised. -/
theorem extra_args_silently_ignored (env : Env) (prog a1 a2 : String)
    (rest : List String) :
    mainEntry env (prog :: a1 :: a2 :: rest) = mainEntry env [prog, a1, a2] := by
  simp [mainEntry, List.getD]

/-- Appending on the right preserves the first character of a string. -/
theorem data_head?_append (s t : String) (c : Char)
    (h : s.data.head? = some c) : (s ++ t).data.head? = some c := by
  rw [String.data_append]
  cases hd : s.data with
  | nil => rw [hd] at h; simp at h
  | cons a l =>
      rw [hd] at h
      simp at h
      simp [h]

/-- Strings whose first characters differ are different. -/
theorem ne_of_first_char_ne (s t : String) (c d : Char)
    (hs : s.data.head? = some c) (ht : t.data.head? = some d)
    (hcd : c ≠ d) : s ≠ t := by
  intro he
  rw [he, ht] at hs
  exact hcd (Option.some.inj hs).symm

/-- C10: The pre-model validation checks only that `path_exists` holds.
For any existing path (the embedding places no further condition on the
path, mirroring `os.path.exists`, which also accepts directories and
unreadable files), validation passes, the model is loaded, and an engine
failure during transcription surfaces as the transcription error with exit
code 1 — the FileNotFoundError line never appears on stderr. -/
theorem existence_only_validation_failure_is_transcription_error (env : Env)
    (prog path ms e : String) (model : WhisperModel)
    (hexists : env.path_exists path = true)
    (hload : env.whisperModel ms "cpu" "int8" = Except.ok model)
    (hrun : model.transcribe path 1 = Except.error e) :
    (mainEntry env [prog, path, ms]).exitCode = 1
      ∧ (mainEntry env [prog, path, ms]).events
          = [Event.loadModel ms "cpu" "int8", Event.modelTranscribe path 1]
      ∧ ("Error during transcription: " ++ e)
          ∈ (mainEntry env [prog, path, ms]).stderr
      ∧ ("File not found: " ++ path) ∉ (mainEntry env [prog, path, ms]).stderr := by
  have hF : ("File not found: " ++ path).data.head? = some 'F' :=
    data_head?_append _ _ _ rfl
  have hL : ("Loading model \x27" ++ ms ++ "\x27 on " ++ "cpu" ++ " with "
      ++ "int8" ++ " precision...").data.head? = some 'L' := by
    apply data_head?_append
    apply data_head?_append
    apply data_head?_append
    apply data_head?_append
    apply data_head?_append
    apply data_head?_append
    rfl
  have hT : ("Transcribing " ++ path ++ "...").data.head? = some 'T' := by
    apply data_head?_append
    apply data_head?_append
    rfl
  have hE : ("Error during transcription: " ++ e).data.head? = some 'E' :=
    data_head?_append _ _ _ rfl
  refine ⟨?_, ?_, ?_, ?_⟩
  · simp [mainEntry, transcribe, hexists, hload, hrun, List.getD]
  · simp [mainEntry, transcribe, hexists, hload, hrun, List.getD]
  · simp [mainEntry, transcribe, hexists, hload, hrun, List.getD]
  · simp [mainEntry, transcribe, hexists, hload, hrun, List.getD]
    refine ⟨?_, ?_, ?_⟩
    · exact ne_of_first_char_ne _ _ 'F' 'L' hF hL (by decide)
    · exact ne_of_first_char_ne _ _ 'F' 'T' hF hT (by decide)
    · exact ne_of_first_char_ne _ _ 'F' 'E' hF hE (by decide)

/-- C10 witness: an existing path whose decoding fails. -/
theorem existence_only_validation_failure_witness :
    (decodeFailEnv.path_exists "somedir" = true
      ∧ decodeFailEnv.whisperModel "small" "cpu" "int8"
          = Except.ok { transcribe := fun _ _ => Except.error "bad audio" }
      ∧ WhisperModel.transcribe
            { transcribe := fun _ _ => Except.error "bad audio" } "somedir" 1
          = Except.error "bad audio")
    ∧ (mainEntry decodeFailEnv ["transcribe.py", "somedir", "small"]).exitCode = 1
    ∧ (mainEntry decodeFailEnv ["transcribe.py", "somedir", "small"]).events
        = [Event.loadModel "small" "cpu" "int8",
           Event.modelTranscribe "somedir" 1]
    ∧ ("Error during transcription: " ++ "bad audio")
        ∈ (mainEntry decodeFailEnv ["transcribe.py", "somedir", "small"]).stderr
    ∧ ("File not found: " ++ "somedir")
        ∉ (mainEntry decodeFailEnv ["transcribe.py", "somedir", "small"]).stderr :=
  ⟨⟨rfl, rfl, rfl⟩,
    existence_only_validation_failure_is_transcription_error decodeFailEnv
      "transcribe.py" "somedir" "small" "bad audio"
      { transcribe := fun _ _ => Except.error "bad audio" } rfl rfl rfl⟩
